import Mathlib

/-!
Verification of the WhatsApp bot adapter layer: connection lifecycle,
inbound event normalization, media acquisition, and outbound dispatch
routing, shallowly embedded from the JavaScript source
(`BaileysClass` and `lib/utils.js`).
-/

/-! ## JS string primitives (character-list core)

JavaScript `String.prototype.includes`, `String.prototype.replace` with a
literal pattern (first occurrence only) and `String.prototype.startsWith`
are modelled over `List Char`. -/

/-- `leadsWith pat s` holds when `pat` occurs at the very start of `s`. -/
def leadsWith : List Char → List Char → Bool
  | [], _ => true
  | _ :: _, [] => false
  | p :: ps, c :: cs => p == c && leadsWith ps cs

/-- `occursIn s pat` models JS `s.includes(pat)`. -/
def occursIn (s pat : List Char) : Bool :=
  match s with
  | [] => pat.isEmpty
  | _ :: rest => leadsWith pat s || occursIn rest pat

/-- `replaceOnce s pat` models JS `s.replace(pat, '')`: the first
occurrence of `pat` in `s` is removed; if `pat` does not occur, `s` is
returned unchanged. -/
def replaceOnce (s pat : List Char) : List Char :=
  match s with
  | [] => []
  | c :: rest =>
    if leadsWith pat (c :: rest) then (c :: rest).drop pat.length
    else c :: replaceOnce rest pat

/-- The group-chat domain marker `'@g.us'`. -/
def gusChars : List Char := ['@', 'g', '.', 'u', 's']

/-- The individual-chat domain marker `'@s.whatsapp.net'`. -/
def waNetChars : List Char :=
  ['@', 's', '.', 'w', 'h', 'a', 't', 's', 'a', 'p', 'p', '.', 'n', 'e', 't']

/-- Core of `utils.formatPhone` (lib/utils.js): pick the domain by an
`includes('@g.us')` test, strip its first occurrence, and re-append it
unless `full` is requested. -/
def formatPhoneL (contact : List Char) (full : Bool) : List Char :=
  let domain := if occursIn contact gusChars then gusChars else waNetChars
  let c := replaceOnce contact domain
  if !full then c ++ domain else c

/-- `utils.formatPhone` on `String`s. -/
def formatPhone (contact : String) (full : Bool) : String :=
  (formatPhoneL contact.toList full).asString

/-! ## Connection lifecycle (`handleConnectionUpdate`, `clearSessionAndRestart`)

The side effects performed by the handler are recorded as an ordered list
of actions. `rimraf`'s callback outcome is passed in as `rimrafOk`: on a
failed directory removal the callback returns without restarting. -/

/-- An observable side effect of the connection lifecycle handler. -/
inductive LifeAction where
  | clearSession
  | initBailey
  | emitReady
  | emitQr (q : String)
deriving DecidableEq, Repr

/-- `DisconnectReason.loggedOut` from the protocol library. -/
def DisconnectReason_loggedOut : Nat := 401

/-- A `connection.update` event: `connection` field, the status code at
`lastDisconnect?.error?.output?.statusCode` (absent fields give `none`),
and an optional `qr` challenge. -/
structure ConnUpdate where
  connection : Option String
  statusCode : Option Nat
  qr : Option String
deriving DecidableEq, Repr

/-- `clearSessionAndRestart`: remove the session directory, and only when
the removal callback reports success call `initBailey` again. -/
def clearSessionAndRestart (rimrafOk : Bool) : List LifeAction :=
  .clearSession :: (if rimrafOk then [.initBailey] else [])

/-- Actions emitted for the optional `qr` field. -/
def qrActions : Option String → List LifeAction
  | some q => [.emitQr q]
  | none => []

/-- `handleConnectionUpdate`: on `close`, a status code different from
`loggedOut` re-runs `initBailey` directly, while `loggedOut` goes through
`clearSessionAndRestart`; on `open` the bus is wired and `ready` emitted;
a present `qr` is always emitted. -/
def handleConnectionUpdate (u : ConnUpdate) (rimrafOk : Bool) : List LifeAction :=
  (if u.connection = some "close" then
    (if u.statusCode ≠ some DisconnectReason_loggedOut then [.initBailey] else [])
    ++ (if u.statusCode = some DisconnectReason_loggedOut then
          clearSessionAndRestart rimrafOk else [])
   else [])
  ++ (if u.connection = some "open" then [.emitReady] else [])
  ++ qrActions u.qr

/-! ## Inbound event data model -/

/-- A JS value as far as the normalizer inspects it (`typeof v === 'number'`). -/
inductive JsVal where
  | num (n : Int)
  | str (s : String)
  | undef
deriving DecidableEq, Repr

/-- `typeof v === 'number'`. -/
def JsVal.isNumber : JsVal → Bool
  | .num _ => true
  | _ => false

/-- `locationMessage` payload. -/
structure LocationMessage where
  degreesLatitude : JsVal
  degreesLongitude : JsVal
deriving DecidableEq, Repr

/-- `extendedTextMessage` payload. -/
structure ExtendedTextMessage where
  text : Option String
deriving DecidableEq, Repr

/-- `buttonsResponseMessage` payload. -/
structure ButtonsResponseMessage where
  selectedDisplayText : Option String
deriving DecidableEq, Repr

/-- `listResponseMessage` payload. -/
structure ListResponseMessage where
  title : Option String
deriving DecidableEq, Repr

/-- The inner `message` object of a raw event. Sub-messages that are only
tested for presence are booleans; those whose fields are read are options. -/
structure RawMessage where
  conversation : Option String
  extendedTextMessage : Option ExtendedTextMessage
  pollUpdateMessage : Bool
  locationMessage : Option LocationMessage
  imageMessage : Bool
  documentMessage : Bool
  audioMessage : Bool
  buttonsResponseMessage : Option ButtonsResponseMessage
  listResponseMessage : Option ListResponseMessage
deriving DecidableEq, Repr

/-- A message key. -/
structure MsgKey where
  remoteJid : Option String
  fromMe : Bool
  id : String
deriving DecidableEq, Repr

/-- One entry of the `messages` array in a `messages.upsert` event. -/
structure MessageCtx where
  key : Option MsgKey
  message : Option RawMessage
deriving DecidableEq, Repr

/-- The payload built by the upsert handler (spread of the context plus
`body`, `from` and `type`). -/
structure Payload where
  key : Option MsgKey
  message : Option RawMessage
  body : Option String
  «from» : Option String
  type : String
deriving DecidableEq, Repr

/-- Environment of the upsert handler: `crypto.randomUUID` is modelled by
an environment-provided value. -/
structure UpsertEnv where
  uuid : String
deriving DecidableEq, Repr

/-- `utils.generateRefprovider`. -/
def generateRefprovider (env : UpsertEnv) (pre : String) : String :=
  if pre ≠ "" then pre ++ "_" ++ env.uuid else env.uuid

/-- `messageCtx?.message?.extendedTextMessage?.text ?? messageCtx?.message?.conversation`. -/
def ctxBody (ctx : MessageCtx) : Option String :=
  match ctx.message with
  | some m =>
    match m.extendedTextMessage with
    | some e => match e.text with | some t => some t | none => m.conversation
    | none => m.conversation
  | none => none

/-- `messageCtx?.key?.remoteJid`. -/
def ctxFrom (ctx : MessageCtx) : Option String := ctx.key.bind MsgKey.remoteJid

/-- Truthiness of an optional sub-message tested with `?.` access. -/
def msgFlag (f : RawMessage → Bool) (m : Option RawMessage) : Bool :=
  (m.map f).getD false

/-- Whether a `locationMessage` is present with both coordinates numeric. -/
def locNumeric (m : Option RawMessage) : Bool :=
  match m.bind RawMessage.locationMessage with
  | some loc => loc.degreesLatitude.isNumber && loc.degreesLongitude.isNumber
  | none => false

/-! ## Classification (sequential `if` blocks of the upsert handler) -/

/-- `if (messageCtx.message?.locationMessage) { ... }` with the numeric
coordinate check. -/
def classifyLocation (env : UpsertEnv) (m : Option RawMessage) (p : Payload) : Payload :=
  match m.bind RawMessage.locationMessage with
  | some loc =>
    if loc.degreesLatitude.isNumber && loc.degreesLongitude.isNumber then
      { p with body := some (generateRefprovider env "_event_location_"), type := "location" }
    else p
  | none => p

/-- `if (messageCtx.message?.imageMessage) { ... }`. -/
def classifyImage (env : UpsertEnv) (m : Option RawMessage) (p : Payload) : Payload :=
  if msgFlag RawMessage.imageMessage m then
    { p with body := some (generateRefprovider env "_event_media_"), type := "image" }
  else p

/-- `if (messageCtx.message?.documentMessage) { ... }`. -/
def classifyDocument (env : UpsertEnv) (m : Option RawMessage) (p : Payload) : Payload :=
  if msgFlag RawMessage.documentMessage m then
    { p with body := some (generateRefprovider env "_event_document_"), type := "file" }
  else p

/-- `if (messageCtx.message?.audioMessage) { ... }`. -/
def classifyAudio (env : UpsertEnv) (m : Option RawMessage) (p : Payload) : Payload :=
  if msgFlag RawMessage.audioMessage m then
    { p with body := some (generateRefprovider env "_event_voice_note_"), type := "voice" }
  else p

/-- The four detection blocks, in source order; each later block
overwrites the payload of an earlier one. -/
def classify (env : UpsertEnv) (m : Option RawMessage) (p : Payload) : Payload :=
  classifyAudio env m (classifyDocument env m (classifyImage env m (classifyLocation env m p)))

/-! ## Post-classification overrides -/

/-- `payload?.message?.buttonsResponseMessage?.selectedDisplayText`. -/
def btnTextOf (p : Payload) : Option String :=
  (p.message.bind RawMessage.buttonsResponseMessage).bind
    ButtonsResponseMessage.selectedDisplayText

/-- `payload?.message?.listResponseMessage?.title`. -/
def listTitleOf (p : Payload) : Option String :=
  (p.message.bind RawMessage.listResponseMessage).bind ListResponseMessage.title

/-- JS truthiness of a possibly-absent string. -/
def truthyS : Option String → Bool
  | none => false
  | some s => s != ""

/-- `if (btnCtx) payload.body = btnCtx;`. -/
def applyBtnOverride (p : Payload) : Payload :=
  if truthyS (btnTextOf p) then { p with body := btnTextOf p } else p

/-- `if (listRowId) payload.body = listRowId;`. -/
def applyListOverride (p : Payload) : Payload :=
  if truthyS (listTitleOf p) then { p with body := listTitleOf p } else p

/-- The two reply overrides, in source order (the list override reads the
payload already updated by the button override). -/
def applyOverrides (p : Payload) : Payload :=
  applyListOverride (applyBtnOverride p)

/-! ## The `messages.upsert` handler

The result is `Except Unit (Option Payload)`: `.error ()` models a thrown
`TypeError` (the handler aborts before any emission), `.ok none` an early
return with no emission, `.ok (some p)` an emitted message. -/

/-- Extract the emitted message of a handler run: a thrown error emits
nothing. -/
def emitted : Except Unit (Option Payload) → Option Payload
  | .error _ => none
  | .ok p => p

/-- The `messages.upsert` handler body, in source order: notify filter,
payload construction, poll-update/broadcast/self filters, the four
classification blocks, the `formatPhone` validity gate (a missing
`remoteJid` makes `formatPhone` throw), the reply overrides, and the final
`from` normalization before emission. -/
def processUpsert (env : UpsertEnv) (messages : List MessageCtx) (ty : String) :
    Except Unit (Option Payload) :=
  if ty ≠ "notify" then .ok none
  else
    match messages with
    | [] => .error ()
    | ctx :: _ =>
      let p0 : Payload :=
        { key := ctx.key, message := ctx.message, body := ctxBody ctx,
          «from» := ctxFrom ctx, type := "text" }
      if msgFlag RawMessage.pollUpdateMessage ctx.message then .ok none
      else if p0.«from» = some "status@broadcast" then .ok none
      else if (ctx.key.map MsgKey.fromMe).getD false then .ok none
      else
        let p1 := classify env ctx.message p0
        match p0.«from» with
        | none => .error ()
        | some s =>
          if formatPhone s false = "" then .ok none
          else
            let p2 := applyOverrides p1
            .ok (some { p2 with «from» := some (formatPhone s false) })

/-! ## Poll updates (`messages.update` handler) -/

/-- Opaque vote payload carried by `update.pollUpdates`; vote aggregation
is an external collaborator, so only an identity token is needed. -/
def PollUpdates := Nat
deriving DecidableEq, Repr

/-- One aggregated poll option as returned by the external
`getAggregateVotesInPollMessage`. -/
structure PollOption where
  name : String
  voters : List String
deriving DecidableEq, Repr

/-- The `update` object of a `messages.update` entry. -/
structure MsgUpdate where
  pollUpdates : Option PollUpdates
deriving DecidableEq, Repr

/-- One entry of a `messages.update` event. -/
structure UpdateItem where
  key : MsgKey
  update : MsgUpdate
deriving DecidableEq, Repr

/-- A stored message as returned by `store.loadMessage`. -/
structure StoredMsg where
  message : Option RawMessage
deriving DecidableEq, Repr

/-- Environment of the update handler: the in-memory store and the
external vote-aggregation collaborator. -/
structure PollEnv where
  loadMessage : Option String → String → Option StoredMsg
  aggregate : RawMessage → PollUpdates → List PollOption

/-- `getMessage`: `store.loadMessage(key.remoteJid, key.id)` followed by
`msg?.message || undefined`. -/
def getMessage (env : PollEnv) (key : MsgKey) : Option RawMessage :=
  (env.loadMessage key.remoteJid key.id).bind StoredMsg.message

/-- The payload emitted for a poll update: the spread of the event's first
entry plus `body`, `from`, `voters` and `type`. -/
structure PollPayload where
  key : MsgKey
  update : MsgUpdate
  body : String
  «from» : Option String
  voters : RawMessage
  type : String
deriving DecidableEq, Repr

/-- `pollMessage.find(poll => poll.voters.length > 0)?.name || ''`. -/
def firstVotedName (l : List PollOption) : String :=
  ((l.find? fun p => p.voters.length != 0).map PollOption.name).getD ""

/-- The `messages.update` handler: for each entry carrying `pollUpdates`,
look up the original poll-creation message; when found, aggregate the
votes and emit a payload spreading the event's first entry
(`const [messageCtx] = message`). -/
def processUpdate (env : PollEnv) (items : List UpdateItem) : List PollPayload :=
  match items with
  | [] => []
  | first :: _ =>
    items.filterMap fun item =>
      match item.update.pollUpdates with
      | some pu =>
        match getMessage env item.key with
        | some pollCreation =>
          some { key := first.key, update := first.update,
                 body := firstVotedName (env.aggregate pollCreation pu),
                 «from» := item.key.remoteJid,
                 voters := pollCreation, type := "poll" }
        | none => none
      | none => none

/-- Comparison definition for the spec's words: the name of the option
with the most voters, or the empty string when no option has any voters
(ties keep the earlier option). -/
def specMostVotedName (l : List PollOption) : String :=
  (l.foldl (fun best o => if best.voters.length < o.voters.length then o else best)
    { name := "", voters := [] }).name

/-! ## Dispatch router (`sendMessage`, `sendPoll`, `sendText`) -/

/-- A button entry of `options.buttons`. -/
structure Btn where
  body : String
deriving DecidableEq, Repr

/-- The `options` object inspected by the router. -/
structure SendOptions where
  buttons : Option (List Btn)
  media : Option String
deriving DecidableEq, Repr

/-- The third argument of `sendMessage`, destructured as `{ options }`. -/
structure OuterArg where
  options : Option SendOptions
deriving DecidableEq, Repr

/-- Payload handed to the underlying connection's `sendMessage`. -/
inductive VendorContent where
  | text (t : String)
  | poll (name : String) (values : List String) (selectableCount : Nat)
deriving DecidableEq, Repr

/-- One invocation of the underlying connection's `sendMessage`. -/
structure VendorCall where
  target : String
  content : VendorContent
deriving DecidableEq, Repr

/-- A send command's resolved value. -/
inductive RetVal where
  | boolFalse
  | ack
deriving DecidableEq, Repr

/-- Resolved value of a send command together with the underlying
connection calls it issued, in order. -/
structure RouterOutcome where
  ret : RetVal
  calls : List VendorCall
deriving DecidableEq, Repr

/-- Behavior of the media path (`sendMedia` performs network and
filesystem I/O), supplied as a collaborator. -/
structure RouterEnv where
  sendMediaImpl : String → String → String → RouterOutcome

/-- `sendText`. -/
def sendText (number message : String) : RouterOutcome :=
  { ret := .ack, calls := [⟨formatPhone number false, .text message⟩] }

/-- `sendPoll`: fewer than two options returns `false` without any
underlying send; otherwise a single-choice poll is sent. -/
def sendPoll (number text : String) (pollOptions : List String) : RouterOutcome :=
  let numberClean := formatPhone number false
  if pollOptions.length < 2 then { ret := .boolFalse, calls := [] }
  else { ret := .ack, calls := [⟨numberClean, .poll text pollOptions 1⟩] }

/-- `options?.buttons?.length` truthiness. -/
def truthyLen (l : Option (List Btn)) : Bool :=
  match l with
  | some xs => xs.length != 0
  | none => false

/-- The public `sendMessage` command: the third parameter is destructured
as `{ options }` before any branch runs, so a missing third argument
throws (`.error ()`); otherwise buttons route to `sendPoll`, media to
`sendMedia`, and anything else to `sendText`. -/
def sendMessageCmd (env : RouterEnv) (numberIn message : String)
    (arg : Option OuterArg) : Except Unit RouterOutcome :=
  match arg with
  | none => .error ()
  | some a =>
    let number := formatPhone numberIn false
    let options := a.options
    if truthyLen (options.bind SendOptions.buttons) then
      .ok (sendPoll number message
        (((options.bind SendOptions.buttons).getD []).map Btn.body))
    else if truthyS (options.bind SendOptions.media) then
      .ok (env.sendMediaImpl number ((options.bind SendOptions.media).getD "") message)
    else .ok (sendText number message)

/-! ## Media acquisition (`utils.generalDownload`) -/

/-- `path.extname`: the extension (with dot) of the final path segment; a
leading dot of the segment does not start an extension. -/
def extnameL (p : List Char) : List Char :=
  let base := (p.reverse.takeWhile (fun c => c ≠ '/')).reverse
  match base with
  | [] => []
  | _ :: rest =>
    if rest.contains '.' then
      '.' :: (rest.reverse.takeWhile (fun c => c ≠ '.')).reverse
    else []

/-- `path.extname` on `String`s. -/
def extname (p : String) : String := (extnameL p.toList).asString

/-- An HTTP response as far as `generalDownload` reads it. -/
structure NetResponse where
  contentType : Option String
deriving DecidableEq, Repr

/-- Environment of the acquisition pipeline: filesystem existence, the two
transports, the `mime` lookup tables, the generated temporary name and the
`rename` outcome. -/
structure MediaEnv where
  existsFs : String → Bool
  httpsGet : String → Option NetResponse
  httpGet : String → Option NetResponse
  mimeContentType : String → Option String
  mimeExtension : String → Option String
  tmpName : String
  renameOk : Bool

/-- Result of one acquisition run: the resolved self-describing path
(`none` models a rejected promise), the URLs requested over the network,
and the content type the pipeline resolved. -/
structure DownloadRun where
  finalPath : Option String
  netCalls : List String
  usedContentType : Option String
deriving DecidableEq, Repr

/-- `utils.fileTypeFromFile`: read the `content-type` header and look up
its extension (`mime.extension` of a missing type gives `false`). -/
def fileTypeFromFile (env : MediaEnv) (r : NetResponse) : Option String × Option String :=
  let type := r.contentType
  let ext := match type with | some t => env.mimeExtension t | none => none
  (type, ext)

/-- `handleFile`: rename the received file to carry the resolved extension
(a missing extension is stringified as `"false"` by the template literal). -/
def handleFile (pathInput : String) (ext : Option String) (renameOk : Bool) :
    Option String :=
  let fullPath := pathInput ++ "." ++ (match ext with | some e => e | none => "false")
  if renameOk then some fullPath else none

/-- The marker tested by `url.includes('https:')`. -/
def httpsMark : List Char := ['h', 't', 't', 'p', 's', ':']

/-- `utils.generalDownload`: local existence is tested first; a local path
is served from a synthetic response whose content type comes from the
path's extension, with no network request; a remote URL picks the
transport by the `https:` literal test and uses the response's declared
content type. -/
def generalDownload (env : MediaEnv) (url : String) : DownloadRun :=
  let checkIsLocal := env.existsFs url
  if checkIsLocal then
    let response : NetResponse := { contentType := env.mimeContentType (extname url) }
    let te := fileTypeFromFile env response
    { finalPath := handleFile url te.2 env.renameOk, netCalls := [],
      usedContentType := te.1 }
  else
    let checkProtocol := occursIn url.toList httpsMark
    match (if checkProtocol then env.httpsGet url else env.httpGet url) with
    | some response =>
      let te := fileTypeFromFile env response
      { finalPath := handleFile env.tmpName te.2 env.renameOk, netCalls := [url],
        usedContentType := te.1 }
    | none => { finalPath := none, netCalls := [url], usedContentType := none }

/-- The validity gate's test, `!utils.formatPhone(payload.from)`, as a
failure predicate: a missing `remoteJid` makes `formatPhone` throw, and a
falsy (empty) result takes the early-return branch. -/
def senderInvalid : Option String → Bool
  | none => true
  | some s => formatPhone s false == ""

/-! ## Concrete sample data for witnesses and counterexamples -/

/-- A sample environment for the upsert handler. -/
def envU : UpsertEnv := ⟨"uuid0"⟩

/-- A raw message with every sub-message absent. -/
def emptyRaw : RawMessage :=
  { conversation := none, extendedTextMessage := none, pollUpdateMessage := false,
    locationMessage := none, imageMessage := false, documentMessage := false,
    audioMessage := false, buttonsResponseMessage := none, listResponseMessage := none }

/-- An upsert entry carrying both a numeric-coordinate location payload
and an image payload. -/
def ctxLocImage : MessageCtx :=
  { key := some ⟨some "123@s.whatsapp.net", false, "id1"⟩,
    message := some { emptyRaw with conversation := some "hi",
                                    locationMessage := some ⟨.num 1, .num 2⟩,
                                    imageMessage := true } }

/-- A plain-text upsert entry from an individual chat. -/
def ctxPlainText : MessageCtx :=
  { key := some ⟨some "123@s.whatsapp.net", false, "id2"⟩,
    message := some { emptyRaw with conversation := some "hi" } }

/-- An upsert entry whose `key` (hence `remoteJid`) is missing. -/
def ctxNoKey : MessageCtx :=
  { key := none, message := some { emptyRaw with conversation := some "hi" } }

/-- A poll-creation message stored for the update handler. -/
def rawPollCreation : RawMessage := emptyRaw

/-- An aggregation result where the first option with any voter is not
the option with the most voters. -/
def aggListC3 : List PollOption := [⟨"A", ["v1"]⟩, ⟨"B", ["v1", "v2"]⟩]

/-- A poll environment whose store finds the creation message and whose
aggregation returns `aggListC3`. -/
def envC3 : PollEnv :=
  { loadMessage := fun _ _ => some ⟨some rawPollCreation⟩,
    aggregate := fun _ _ => aggListC3 }

/-- An update entry carrying `pollUpdates`. -/
def itemC3 : UpdateItem :=
  ⟨⟨some "1@s.whatsapp.net", false, "m1"⟩, ⟨some ((0 : Nat) : PollUpdates)⟩⟩

/-- A router environment with an inert media path. -/
def envR : RouterEnv := ⟨fun _ _ _ => ⟨.ack, []⟩⟩

/-- A media environment where exactly `/tmp/existing/file.png` exists
locally and the `mime` tables know `png`. -/
def envPng : MediaEnv :=
  { existsFs := fun s => s == "/tmp/existing/file.png",
    httpsGet := fun _ => none, httpGet := fun _ => none,
    mimeContentType := fun e => if e == ".png" then some "image/png" else none,
    mimeExtension := fun t => if t == "image/png" then some "png" else none,
    tmpName := "/tmp/tmp-0-dat", renameOk := true }

/-- A classified payload carrying a list-reply selection. -/
def payloadWithList : Payload :=
  { key := some ⟨some "123@s.whatsapp.net", false, "id3"⟩,
    message := some { emptyRaw with conversation := some "hi",
                                    listResponseMessage := some ⟨some "Row A"⟩ },
    body := some "hi", «from» := some "123@s.whatsapp.net", type := "text" }

/-- A classified payload carrying a quick-reply button selection. -/
def payloadWithBtn : Payload :=
  { key := some ⟨some "123@s.whatsapp.net", false, "id4"⟩,
    message := some { emptyRaw with conversation := some "hi",
                                    buttonsResponseMessage := some ⟨some "Btn B"⟩ },
    body := some "hi", «from» := some "123@s.whatsapp.net", type := "text" }
/-! ## Lemmas about the string primitives -/

theorem leadsWith_at_cons (ps : List Char) (c : Char) (cs : List Char)
    (hc : c ≠ '@') : leadsWith ('@' :: ps) (c :: cs) = false := by
  simp [leadsWith, Ne.symm hc]

theorem occursIn_append_at (b t ps : List Char) (hb : '@' ∉ b) :
    occursIn (b ++ t) ('@' :: ps) = occursIn t ('@' :: ps) := by
  induction b with
  | nil => rfl
  | cons c b ih =>
    have hc : c ≠ '@' := by
      intro h; exact hb (h ▸ List.mem_cons_self c b)
    have hb' : '@' ∉ b := fun h => hb (List.mem_cons_of_mem c h)
    simp only [List.cons_append, occursIn,
      leadsWith_at_cons ps c (b ++ t) hc, Bool.false_or]
    exact ih hb'

theorem replaceOnce_append_at (b t ps : List Char) (hb : '@' ∉ b) :
    replaceOnce (b ++ t) ('@' :: ps) = b ++ replaceOnce t ('@' :: ps) := by
  induction b with
  | nil => rfl
  | cons c b ih =>
    have hc : c ≠ '@' := by
      intro h; exact hb (h ▸ List.mem_cons_self c b)
    have hb' : '@' ∉ b := fun h => hb (List.mem_cons_of_mem c h)
    have hl := leadsWith_at_cons ps c (b ++ t) hc
    simp only [List.cons_append, replaceOnce, List.append_eq]
    rw [hl]
    simp only [Bool.false_eq_true, if_false]
    exact congrArg (List.cons c) (ih hb')

theorem asString_eq_empty_iff (l : List Char) : l.asString = "" ↔ l = [] := by
  constructor
  · intro h
    have := congrArg String.data h
    simpa [List.asString] using this
  · intro h; subst h; rfl

theorem formatPhoneL_ne_nil (c : List Char) : formatPhoneL c false ≠ [] := by
  unfold formatPhoneL
  simp only [Bool.not_false, if_true]
  intro h
  have h2 := (List.append_eq_nil.mp h).2
  split at h2
  · simp [gusChars] at h2
  · simp [waNetChars] at h2

theorem formatPhone_ne_empty (s : String) : formatPhone s false ≠ "" := by
  unfold formatPhone
  intro h
  exact formatPhoneL_ne_nil s.toList ((asString_eq_empty_iff _).1 h)


/-! ## Classification and override lemmas -/

theorem classifyLocation_type (env : UpsertEnv) (m : Option RawMessage) (p : Payload) :
    (classifyLocation env m p).type = if locNumeric m then "location" else p.type := by
  unfold classifyLocation locNumeric
  cases m.bind RawMessage.locationMessage with
  | none => simp
  | some loc =>
    by_cases h : (loc.degreesLatitude.isNumber && loc.degreesLongitude.isNumber) = true <;>
      simp [h]

theorem classifyImage_type (env : UpsertEnv) (m : Option RawMessage) (p : Payload) :
    (classifyImage env m p).type =
      if msgFlag RawMessage.imageMessage m then "image" else p.type := by
  unfold classifyImage
  by_cases h : msgFlag RawMessage.imageMessage m = true <;> simp [h]

theorem classifyDocument_type (env : UpsertEnv) (m : Option RawMessage) (p : Payload) :
    (classifyDocument env m p).type =
      if msgFlag RawMessage.documentMessage m then "file" else p.type := by
  unfold classifyDocument
  by_cases h : msgFlag RawMessage.documentMessage m = true <;> simp [h]

theorem classifyAudio_type (env : UpsertEnv) (m : Option RawMessage) (p : Payload) :
    (classifyAudio env m p).type =
      if msgFlag RawMessage.audioMessage m then "voice" else p.type := by
  unfold classifyAudio
  by_cases h : msgFlag RawMessage.audioMessage m = true <;> simp [h]

theorem classify_type (env : UpsertEnv) (m : Option RawMessage) (p : Payload) :
    (classify env m p).type =
      if msgFlag RawMessage.audioMessage m then "voice"
      else if msgFlag RawMessage.documentMessage m then "file"
      else if msgFlag RawMessage.imageMessage m then "image"
      else if locNumeric m then "location"
      else p.type := by
  unfold classify
  rw [classifyAudio_type, classifyDocument_type, classifyImage_type, classifyLocation_type]

theorem applyBtnOverride_type (p : Payload) : (applyBtnOverride p).type = p.type := by
  unfold applyBtnOverride
  by_cases h : truthyS (btnTextOf p) = true <;> simp [h]

theorem applyBtnOverride_key (p : Payload) : (applyBtnOverride p).key = p.key := by
  unfold applyBtnOverride
  by_cases h : truthyS (btnTextOf p) = true <;> simp [h]

theorem applyBtnOverride_message (p : Payload) :
    (applyBtnOverride p).message = p.message := by
  unfold applyBtnOverride
  by_cases h : truthyS (btnTextOf p) = true <;> simp [h]

theorem applyBtnOverride_from (p : Payload) :
    (applyBtnOverride p).«from» = p.«from» := by
  unfold applyBtnOverride
  by_cases h : truthyS (btnTextOf p) = true <;> simp [h]

theorem applyListOverride_type (p : Payload) : (applyListOverride p).type = p.type := by
  unfold applyListOverride
  by_cases h : truthyS (listTitleOf p) = true <;> simp [h]

theorem applyListOverride_key (p : Payload) : (applyListOverride p).key = p.key := by
  unfold applyListOverride
  by_cases h : truthyS (listTitleOf p) = true <;> simp [h]

theorem applyListOverride_message (p : Payload) :
    (applyListOverride p).message = p.message := by
  unfold applyListOverride
  by_cases h : truthyS (listTitleOf p) = true <;> simp [h]

theorem applyListOverride_from (p : Payload) :
    (applyListOverride p).«from» = p.«from» := by
  unfold applyListOverride
  by_cases h : truthyS (listTitleOf p) = true <;> simp [h]

theorem applyOverrides_type (p : Payload) : (applyOverrides p).type = p.type := by
  unfold applyOverrides
  rw [applyListOverride_type, applyBtnOverride_type]

theorem btnTextOf_message_congr (p q : Payload) (h : p.message = q.message) :
    btnTextOf p = btnTextOf q := by
  unfold btnTextOf
  rw [h]

theorem listTitleOf_message_congr (p q : Payload) (h : p.message = q.message) :
    listTitleOf p = listTitleOf q := by
  unfold listTitleOf
  rw [h]

/-! ## A run lemma for the upsert handler -/

theorem processUpsert_emits (env : UpsertEnv) (ctx : MessageCtx) (rest : List MessageCtx)
    (hpoll : msgFlag RawMessage.pollUpdateMessage ctx.message = false)
    (hbc : ctxFrom ctx ≠ some "status@broadcast")
    (hme : (ctx.key.map MsgKey.fromMe).getD false = false)
    (s : String) (hs : ctxFrom ctx = some s) :
    processUpsert env (ctx :: rest) "notify" =
      .ok (some { applyOverrides (classify env ctx.message
          { key := ctx.key, message := ctx.message, body := ctxBody ctx,
            «from» := some s, type := "text" }) with
          «from» := some (formatPhone s false) }) := by
  rw [hs] at hbc
  simp [processUpsert, hpoll, hme, hs, hbc, formatPhone_ne_empty s]

/-! ## Claim theorems -/

/-- C1 (amended): the classified `type` of an emitted upsert message is
chosen last-match-wins over the detection blocks, which run in source
order location, image, document, audio: audio gives `voice`, else a
document gives `file`, else an image gives `image`, else a numeric
location gives `location`, else `text`. -/
theorem C1_type_last_match_wins (env : UpsertEnv) (ctx : MessageCtx)
    (rest : List MessageCtx)
    (hpoll : msgFlag RawMessage.pollUpdateMessage ctx.message = false)
    (hbc : ctxFrom ctx ≠ some "status@broadcast")
    (hme : (ctx.key.map MsgKey.fromMe).getD false = false)
    (s : String) (hs : ctxFrom ctx = some s) :
    (emitted (processUpsert env (ctx :: rest) "notify")).map Payload.type =
      some (if msgFlag RawMessage.audioMessage ctx.message then "voice"
        else if msgFlag RawMessage.documentMessage ctx.message then "file"
        else if msgFlag RawMessage.imageMessage ctx.message then "image"
        else if locNumeric ctx.message then "location"
        else "text") := by
  rw [processUpsert_emits env ctx rest hpoll hbc hme s hs]
  show some ((applyOverrides (classify env ctx.message
    { key := ctx.key, message := ctx.message, body := ctxBody ctx,
      «from» := some s, type := "text" })).type) = _
  rw [applyOverrides_type, classify_type]

/-- C1 witness: the amended theorem evaluated at a message carrying both
a numeric location and an image. -/
theorem C1_type_last_match_wins_witness :
    (emitted (processUpsert envU [ctxLocImage] "notify")).map Payload.type =
      some (if msgFlag RawMessage.audioMessage ctxLocImage.message then "voice"
        else if msgFlag RawMessage.documentMessage ctxLocImage.message then "file"
        else if msgFlag RawMessage.imageMessage ctxLocImage.message then "image"
        else if locNumeric ctxLocImage.message then "location"
        else "text") :=
  C1_type_last_match_wins envU ctxLocImage [] rfl (by decide) rfl
    "123@s.whatsapp.net" rfl

/-- C1 counterexample: a passing message with both a valid location
payload and an image payload is emitted with type `image`, not
`location`, refuting first-match-wins precedence. -/
theorem C1_location_image_counterexample :
    locNumeric ctxLocImage.message = true ∧
    msgFlag RawMessage.imageMessage ctxLocImage.message = true ∧
    (emitted (processUpsert envU [ctxLocImage] "notify")).map Payload.type =
      some "image" ∧
    (emitted (processUpsert envU [ctxLocImage] "notify")).map Payload.type ≠
      some "location" :=
  ⟨rfl, rfl, by decide, by decide⟩

/-- C2 (confirmed): on a `close` connection update, a logged-out status
code destroys the persisted session and only then (on successful removal)
starts a fresh connecting cycle, while any other status code starts a new
connecting cycle immediately with no session destruction. -/
theorem C2_close_branch (st : Option Nat) (qr : Option String) (ok : Bool) :
    (st = some DisconnectReason_loggedOut →
      handleConnectionUpdate ⟨some "close", st, qr⟩ ok =
        [LifeAction.clearSession] ++ (if ok then [LifeAction.initBailey] else [])
          ++ qrActions qr) ∧
    (st ≠ some DisconnectReason_loggedOut →
      handleConnectionUpdate ⟨some "close", st, qr⟩ ok =
        [LifeAction.initBailey] ++ qrActions qr) := by
  constructor <;> intro h <;>
    simp [handleConnectionUpdate, clearSessionAndRestart, h]

/-- C2 witness: the theorem evaluated at the logged-out code (401) and a
transient code (408). -/
theorem C2_close_branch_witness :
    handleConnectionUpdate ⟨some "close", some 401, none⟩ true =
      [LifeAction.clearSession] ++ (if true then [LifeAction.initBailey] else [])
        ++ qrActions none ∧
    handleConnectionUpdate ⟨some "close", some 408, none⟩ true =
      [LifeAction.initBailey] ++ qrActions none :=
  ⟨(C2_close_branch (some 401) none true).1 rfl,
   (C2_close_branch (some 408) none true).2 (by decide)⟩

/-- C3 (amended): on an update entry carrying `pollUpdates` whose
poll-creation message is found, the emitted message has type `poll`, its
`voters` field holds the poll-creation content, and its `body` is the
name of the first aggregated option having at least one voter (empty
string if none has any). -/
theorem C3_poll_update_emission (env : PollEnv) (item : UpdateItem)
    (pu : PollUpdates) (creation : RawMessage)
    (hpu : item.update.pollUpdates = some pu)
    (hcr : getMessage env item.key = some creation) :
    processUpdate env [item] =
      [{ key := item.key, update := item.update,
         body := firstVotedName (env.aggregate creation pu),
         «from» := item.key.remoteJid, voters := creation, type := "poll" }] := by
  simp [processUpdate, hpu, hcr]

/-- C3 witness: the amended theorem evaluated on a concrete store and
aggregation. -/
theorem C3_poll_update_emission_witness :
    processUpdate envC3 [itemC3] =
      [{ key := itemC3.key, update := itemC3.update,
         body := firstVotedName (envC3.aggregate rawPollCreation ((0 : Nat) : PollUpdates)),
         «from» := itemC3.key.remoteJid, voters := rawPollCreation, type := "poll" }] :=
  C3_poll_update_emission envC3 itemC3 ((0 : Nat) : PollUpdates) rawPollCreation rfl rfl

/-- C3 counterexample: with aggregation result `A: 1 voter, B: 2 voters`,
the emitted `body` is `A` (the first option with any voter), not `B` (the
option with the most voters), refuting the claim. -/
theorem C3_most_voters_counterexample :
    (processUpdate envC3 [itemC3]).map PollPayload.body = ["A"] ∧
    specMostVotedName aggListC3 = "B" ∧ ("A" : String) ≠ "B" :=
  ⟨rfl, rfl, by decide⟩

/-- C4 (confirmed): an upsert entry whose sender identifier fails the
`formatPhone` validity gate (missing `remoteJid`, on which `formatPhone`
throws, or a falsy result) leads to no emission at all. -/
theorem C4_invalid_sender_dropped (env : UpsertEnv) (ctx : MessageCtx)
    (rest : List MessageCtx) (ty : String)
    (h : senderInvalid (ctxFrom ctx) = true) :
    emitted (processUpsert env (ctx :: rest) ty) = none := by
  simp only [processUpsert]
  split_ifs <;> try rfl
  cases hf : ctxFrom ctx with
  | none => rfl
  | some s =>
    rw [hf] at h
    have hfp : formatPhone s false = "" := by simpa [senderInvalid] using h
    simp [hfp, emitted]

/-- C4 witness: an entry with no `key` (hence no sender identifier) is
dropped. -/
theorem C4_invalid_sender_dropped_witness :
    senderInvalid (ctxFrom ctxNoKey) = true ∧
    emitted (processUpsert envU [ctxNoKey] "notify") = none :=
  ⟨rfl, C4_invalid_sender_dropped envU ctxNoKey [] "notify" rfl⟩

/-- C5 (confirmed): a `sendMessage` call whose `options.buttons` has
exactly one entry resolves to `false` with no underlying connection send;
with two or more entries a single-choice poll is sent whose option list
is the button labels in order. -/
theorem C5_buttons_poll_routing (env : RouterEnv) (n m : String) (a : OuterArg)
    (so : SendOptions) (btns : List Btn)
    (hso : a.options = some so) (hb : so.buttons = some btns) :
    (btns.length = 1 →
      sendMessageCmd env n m (some a) = .ok ⟨.boolFalse, []⟩) ∧
    (2 ≤ btns.length →
      sendMessageCmd env n m (some a) =
        .ok ⟨.ack, [⟨formatPhone (formatPhone n false) false,
          .poll m (btns.map Btn.body) 1⟩]⟩) := by
  constructor <;> intro h
  · simp [sendMessageCmd, hso, hb, truthyLen, h, sendPoll]
  · have h0 : btns.length ≠ 0 := by omega
    have h2 : ¬ btns.length < 2 := by omega
    simp [sendMessageCmd, hso, hb, truthyLen, h0, sendPoll, List.length_map, h2]

/-- C5 witness: the theorem evaluated at one-button and two-button calls. -/
theorem C5_buttons_poll_routing_witness :
    sendMessageCmd envR "5551112222" "pick" (some ⟨some ⟨some [⟨"One"⟩], none⟩⟩) =
      .ok ⟨.boolFalse, []⟩ ∧
    sendMessageCmd envR "5551112222" "pick" (some ⟨some ⟨some [⟨"One"⟩, ⟨"Two"⟩], none⟩⟩) =
      .ok ⟨.ack, [⟨formatPhone (formatPhone "5551112222" false) false,
        .poll "pick" ["One", "Two"] 1⟩]⟩ :=
  ⟨(C5_buttons_poll_routing envR "5551112222" "pick" ⟨some ⟨some [⟨"One"⟩], none⟩⟩
      ⟨some [⟨"One"⟩], none⟩ [⟨"One"⟩] rfl rfl).1 rfl,
   (C5_buttons_poll_routing envR "5551112222" "pick"
      ⟨some ⟨some [⟨"One"⟩, ⟨"Two"⟩], none⟩⟩
      ⟨some [⟨"One"⟩, ⟨"Two"⟩], none⟩ [⟨"One"⟩, ⟨"Two"⟩] rfl rfl).2 (by decide)⟩

/-- C6 (confirmed): a media reference that exists as a local path is
acquired with no network request, and its content type is resolved from
the path's extension, not from any HTTP response. -/
theorem C6_local_media_acquisition (env : MediaEnv) (url : String)
    (h : env.existsFs url = true) :
    (generalDownload env url).netCalls = [] ∧
    (generalDownload env url).usedContentType =
      env.mimeContentType (extname url) := by
  simp [generalDownload, fileTypeFromFile, h]

/-- C6 witness: the theorem evaluated at a locally-existing `.png` path. -/
theorem C6_local_media_acquisition_witness :
    (generalDownload envPng "/tmp/existing/file.png").netCalls = [] ∧
    (generalDownload envPng "/tmp/existing/file.png").usedContentType =
      envPng.mimeContentType (extname "/tmp/existing/file.png") :=
  C6_local_media_acquisition envPng "/tmp/existing/file.png" (by decide)

/-- C7 (amended): on canonical identifiers, a bare part free of `'@'`
followed by one of the two domain markers, `formatPhone` returns its
input unchanged and is therefore idempotent there; full idempotence over
all strings fails (see the counterexample). -/
theorem C7_formatPhone_canonical_idempotent (b : List Char) (hb : '@' ∉ b) :
    formatPhoneL (b ++ waNetChars) false = b ++ waNetChars ∧
    formatPhoneL (b ++ gusChars) false = b ++ gusChars ∧
    formatPhoneL (formatPhoneL (b ++ waNetChars) false) false =
      formatPhoneL (b ++ waNetChars) false ∧
    formatPhoneL (formatPhoneL (b ++ gusChars) false) false =
      formatPhoneL (b ++ gusChars) false := by
  have hgu : gusChars = '@' :: ['g', '.', 'u', 's'] := rfl
  have hwn : waNetChars =
      '@' :: ['s', '.', 'w', 'h', 'a', 't', 's', 'a', 'p', 'p', '.', 'n', 'e', 't'] := rfl
  have h1 : occursIn (b ++ waNetChars) gusChars = false := by
    rw [hgu, occursIn_append_at b waNetChars _ hb]
    decide
  have h2 : replaceOnce (b ++ waNetChars) waNetChars = b := by
    rw [hwn, replaceOnce_append_at b _ _ hb, ← hwn]
    rw [show replaceOnce waNetChars waNetChars = ([] : List Char) from by decide,
      List.append_nil]
  have h1g : occursIn (b ++ gusChars) gusChars = true := by
    rw [hgu, occursIn_append_at b _ _ hb]
    decide
  have h2g : replaceOnce (b ++ gusChars) gusChars = b := by
    rw [hgu, replaceOnce_append_at b _ _ hb, ← hgu]
    rw [show replaceOnce gusChars gusChars = ([] : List Char) from by decide,
      List.append_nil]
  have hw : formatPhoneL (b ++ waNetChars) false = b ++ waNetChars := by
    unfold formatPhoneL
    rw [h1]
    simp [h2]
  have hg : formatPhoneL (b ++ gusChars) false = b ++ gusChars := by
    unfold formatPhoneL
    rw [h1g]
    simp [h2g]
  refine ⟨hw, hg, ?_, ?_⟩
  · rw [hw]; exact hw
  · rw [hg]; exact hg

/-- C7 witness: the amended theorem evaluated at the canonical bare part
`123`. -/
theorem C7_formatPhone_canonical_idempotent_witness :
    formatPhoneL (['1', '2', '3'] ++ waNetChars) false = ['1', '2', '3'] ++ waNetChars ∧
    formatPhoneL (['1', '2', '3'] ++ gusChars) false = ['1', '2', '3'] ++ gusChars ∧
    formatPhoneL (formatPhoneL (['1', '2', '3'] ++ waNetChars) false) false =
      formatPhoneL (['1', '2', '3'] ++ waNetChars) false ∧
    formatPhoneL (formatPhoneL (['1', '2', '3'] ++ gusChars) false) false =
      formatPhoneL (['1', '2', '3'] ++ gusChars) false :=
  C7_formatPhone_canonical_idempotent ['1', '2', '3'] (by decide)

/-- C7 counterexample: `formatPhone` is not idempotent on every contact
string: removing the first individual-domain occurrence can splice a
group marker together, flipping the domain choice of the second
application. -/
theorem C7_idempotence_counterexample :
    formatPhone (formatPhone "a@g.u@s.whatsapp.nets" false) false ≠
      formatPhone "a@g.u@s.whatsapp.nets" false := by
  decide

/-- C8 (amended): every message emitted from the upsert path has
`from` equal to `formatPhone(raw from, false)`: the canonical
domain-qualified identifier, which still carries the domain suffix. -/
theorem C8_from_domain_qualified (env : UpsertEnv) (ctx : MessageCtx)
    (rest : List MessageCtx)
    (hpoll : msgFlag RawMessage.pollUpdateMessage ctx.message = false)
    (hbc : ctxFrom ctx ≠ some "status@broadcast")
    (hme : (ctx.key.map MsgKey.fromMe).getD false = false)
    (s : String) (hs : ctxFrom ctx = some s) :
    (emitted (processUpsert env (ctx :: rest) "notify")).map Payload.«from» =
      some (some (formatPhone s false)) := by
  rw [processUpsert_emits env ctx rest hpoll hbc hme s hs]
  rfl

/-- C8 witness: the amended theorem evaluated at a plain-text message. -/
theorem C8_from_domain_qualified_witness :
    (emitted (processUpsert envU [ctxPlainText] "notify")).map Payload.«from» =
      some (some (formatPhone "123@s.whatsapp.net" false)) :=
  C8_from_domain_qualified envU ctxPlainText [] rfl (by decide) rfl
    "123@s.whatsapp.net" rfl

/-- C8 counterexample: the emitted `from` of a plain-text message still
contains the full domain suffix, refuting the bare, domain-stripped
claim. -/
theorem C8_domain_not_stripped_counterexample :
    (emitted (processUpsert envU [ctxPlainText] "notify")).map Payload.«from» =
      some (some "123@s.whatsapp.net") ∧
    occursIn ("123@s.whatsapp.net".toList) waNetChars = true :=
  ⟨rfl, by decide⟩

/-- C9 (confirmed): when a passing payload carries a quick-reply button
selection or a list-item selection with a truthy display text, the
override step replaces `body` with that text (the list selection wins
when both are present), while `type` and every other field are left
unchanged. -/
theorem C9_reply_overrides_body (p : Payload) :
    (truthyS (listTitleOf p) = true →
      (applyOverrides p).body = listTitleOf p) ∧
    (truthyS (listTitleOf p) = false → truthyS (btnTextOf p) = true →
      (applyOverrides p).body = btnTextOf p) ∧
    (applyOverrides p).type = p.type ∧ (applyOverrides p).key = p.key ∧
    (applyOverrides p).message = p.message ∧
    (applyOverrides p).«from» = p.«from» := by
  have hmsg : (applyBtnOverride p).message = p.message := applyBtnOverride_message p
  have hlist : listTitleOf (applyBtnOverride p) = listTitleOf p :=
    listTitleOf_message_congr _ _ hmsg
  refine ⟨?_, ?_, applyOverrides_type p, ?_, ?_, ?_⟩
  · intro h
    unfold applyOverrides applyListOverride
    rw [hlist]
    simp [h]
  · intro h1 h2
    unfold applyOverrides applyListOverride
    rw [hlist]
    simp only [h1, Bool.false_eq_true, if_false]
    unfold applyBtnOverride
    simp [h2]
  · unfold applyOverrides
    rw [applyListOverride_key, applyBtnOverride_key]
  · unfold applyOverrides
    rw [applyListOverride_message, applyBtnOverride_message]
  · unfold applyOverrides
    rw [applyListOverride_from, applyBtnOverride_from]

/-- C9 witness: the override step evaluated at a payload with a list
selection and at one with a button selection. -/
theorem C9_reply_overrides_body_witness :
    (applyOverrides payloadWithList).body = listTitleOf payloadWithList ∧
    (applyOverrides payloadWithBtn).body = btnTextOf payloadWithBtn ∧
    (applyOverrides payloadWithList).type = payloadWithList.type :=
  ⟨(C9_reply_overrides_body payloadWithList).1 rfl,
   (C9_reply_overrides_body payloadWithBtn).2.1 rfl rfl,
   (C9_reply_overrides_body payloadWithList).2.2.1⟩

/-- C10 (confirmed): calling the public `sendMessage` with no third
argument throws, because `{ options }` is destructured before any branch
runs; with a third argument object and no buttons or media, a plain text
message is sent. -/
theorem C10_missing_options_throws (env : RouterEnv) (n m : String) :
    sendMessageCmd env n m none = .error () ∧
    sendMessageCmd env n m (some ⟨none⟩) =
      .ok ⟨.ack, [⟨formatPhone (formatPhone n false) false, .text m⟩]⟩ := by
  constructor
  · rfl
  · simp [sendMessageCmd, truthyLen, truthyS, sendText]
